import Mathlib

/-
Verification of the univera dynamic schema engine (FastAPI/SQLAlchemy record
store) against its specification.  The Python source in src/app is shallowly
embedded: handlers become pure functions over an explicit database state,
SQLAlchemy queries become list searches in insertion order, and HTTP errors
become an explicit error type.  UUIDs and timestamps are modelled by naturals
drawn from counters in the state; payload dictionaries are association lists
in insertion order, as Python dicts are ordered.
-/

namespace Univera

/-- JSON-like runtime value of a record payload field.  Python floats are
modelled by rationals (every JSON number literal is decimal, hence rational). -/
inductive Value where
  | vStr (s : String)
  | vInt (n : Int)
  | vFloat (q : Rat)
  | vBool (b : Bool)
  | vNull
deriving DecidableEq, Repr

/-- Payload dictionaries: association lists in insertion order, modelling
Python dict ordering. -/
abbrev Payload := List (String × Value)

/-- Model of Python `d[k]` / key lookup: the value at the first matching key. -/
def pyGet (d : Payload) (k : String) : Option Value :=
  (d.find? (fun kv => kv.1 == k)).map (·.2)

/-- Model of Python `k in d`. -/
def hasKey (d : Payload) (k : String) : Bool :=
  d.any (fun kv => kv.1 == k)

/-- Field types of src/app/schemas.py FieldType. -/
inductive FieldType where
  | string | integer | float | boolean | date | file | relation
deriving DecidableEq, Repr

/-- Regular expressions, embedding the Python pattern strings stored in field
definitions.  `re.fullmatch` anchors both ends, so the `^`/`$` anchors that
appear in the spec examples are represented by the whole-string matching
discipline of `fullmatch` below. -/
inductive Regex where
  | emp
  | eps
  | range (lo hi : Char)
  | cat (a b : Regex)
  | alt (a b : Regex)
  | star (a : Regex)
deriving DecidableEq, Repr

/-- Whether a regex accepts the empty string. -/
def Regex.nullable : Regex → Bool
  | .emp => false
  | .eps => true
  | .range _ _ => false
  | .cat a b => a.nullable && b.nullable
  | .alt a b => a.nullable || b.nullable
  | .star _ => true

/-- Brzozowski derivative of a regex by one character. -/
def Regex.deriv (c : Char) : Regex → Regex
  | .emp => .emp
  | .eps => .emp
  | .range lo hi => if lo ≤ c && c ≤ hi then .eps else .emp
  | .cat a b =>
      if a.nullable then .alt (.cat (a.deriv c) b) (b.deriv c)
      else .cat (a.deriv c) b
  | .alt a b => .alt (a.deriv c) (b.deriv c)
  | .star a => .cat (a.deriv c) (.star a)

/-- Matching a regex against a whole character list. -/
def Regex.rmatch : Regex → List Char → Bool
  | r, [] => r.nullable
  | r, c :: cs => (r.deriv c).rmatch cs

/-- Model of Python `re.fullmatch(pattern, value)` succeeding: the whole string
is matched. -/
def Regex.fullmatch (r : Regex) (s : String) : Bool :=
  r.rmatch s.data

/-- The pattern `^[a-z]+$` from the spec examples: one or more lowercase
letters, matched against the whole string. -/
def lowerPlus : Regex :=
  .cat (.range 'a' 'z') (.star (.range 'a' 'z'))

/-- Field definition, from src/app/schemas.py FieldDefinition (the inert UI
metadata and group are display-only and omitted).  `pattern := some r` models a
non-empty pattern string (Python treats an empty pattern string as falsy and
skips the check; an empty pattern is not representable here). -/
structure FieldDef where
  name : String
  type : FieldType
  relation : Option String := none
  required : Bool := false
  unique : Bool := false
  pattern : Option Regex := none
  min : Option Rat := none
  max : Option Rat := none
  min_length : Option Nat := none
  max_length : Option Nat := none
deriving DecidableEq, Repr

/-- HTTPException(status_code, detail). -/
structure HTTPError where
  status : Nat
  detail : String
deriving DecidableEq, Repr

/-- Model of Python isinstance(v, str). -/
def isStr : Value → Bool
  | .vStr _ => true
  | _ => false

/-- Model of Python isinstance(v, int): bool is a subclass of int. -/
def isInstInt : Value → Bool
  | .vInt _ => true
  | .vBool _ => true
  | _ => false

/-- Model of Python isinstance(v, (int, float)): bool is a subclass of int. -/
def isInstNum : Value → Bool
  | .vInt _ => true
  | .vBool _ => true
  | .vFloat _ => true
  | _ => false

/-- Model of Python isinstance(v, bool). -/
def isBool : Value → Bool
  | .vBool _ => true
  | _ => false

/-- Leap years of the proleptic Gregorian calendar used by Python's date. -/
def isLeapYear (y : Nat) : Bool :=
  y % 4 == 0 && (y % 100 != 0 || y % 400 == 0)

/-- Days in a month for Python's date range checks. -/
def daysInMonth (y m : Nat) : Nat :=
  if m == 2 then (if isLeapYear y then 29 else 28)
  else if m == 4 || m == 6 || m == 9 || m == 11 then 30
  else 31

/-- Model of `date.fromisoformat(s)` succeeding on a string: the strict
YYYY-MM-DD form with a valid calendar date. -/
def isoDateOk (s : String) : Bool :=
  match s.data with
  | [y1, y2, y3, y4, '-', m1, m2, '-', d1, d2] =>
      if y1.isDigit && y2.isDigit && y3.isDigit && y4.isDigit &&
         m1.isDigit && m2.isDigit && d1.isDigit && d2.isDigit then
        let y := ((y1.toNat - 48) * 1000 + (y2.toNat - 48) * 100 +
                  (y3.toNat - 48) * 10 + (y4.toNat - 48))
        let m := (m1.toNat - 48) * 10 + (m2.toNat - 48)
        let d := (d1.toNat - 48) * 10 + (d2.toNat - 48)
        1 ≤ y && 1 ≤ m && m ≤ 12 && 1 ≤ d && d ≤ daysInMonth y m
      else false
  | _ => false

/-- Model of `date.fromisoformat(value)` not raising: a non-string argument
raises TypeError, which the handler's bare `except` also converts to a 400. -/
def pyFromIsoformat : Value → Bool
  | .vStr s => isoDateOk s
  | _ => false

/-- Numeric value of a payload value for Python comparisons; True compares as
1 and False as 0.  The non-numeric cases are unreachable: the type check
rejects non-numeric values before any min or max comparison runs. -/
def numVal : Value → Rat
  | .vInt n => (n : Rat)
  | .vBool b => if b then 1 else 0
  | .vFloat q => q
  | .vStr _ => 0
  | .vNull => 0

/-- String content of a payload value; non-string cases are unreachable after
the type check. -/
def strVal : Value → String
  | .vStr s => s
  | _ => ""

/-- Decimal text of a float value.  Python str() and PostgreSQL number-to-text
agree on such values; modelled exactly for integral floats, which is the shape
every comparison in the claims exercises. -/
def floatRepr (q : Rat) : String :=
  if q.den = 1 then toString q.num ++ ".0" else toString q

/-- Model of Python str(value) on a payload value, as used by `str(value)` and
by the f-string interpolation of a value into an error detail. -/
def pyStr : Value → String
  | .vStr s => s
  | .vInt n => toString n
  | .vBool b => if b then "True" else "False"
  | .vFloat q => floatRepr q
  | .vNull => "None"

/-- Model of PostgreSQL jsonb `->>` text extraction applied to a stored
payload value: strings come back unquoted, numbers as their literal text,
booleans lowercase, and JSON null becomes SQL NULL (none), which never
compares equal to any text. -/
def jsonAstext : Value → Option String
  | .vStr s => some s
  | .vInt n => some (toString n)
  | .vBool b => some (if b then "true" else "false")
  | .vFloat q => some (floatRepr q)
  | .vNull => none

deriving instance DecidableEq for Except

/-- Required-field pass of _validate_data (src/app/crud_router.py lines 19-21):
for each field in declaration order, raise 400 if it is required and its name
is not a key of the payload. -/
def checkRequired (schema_fields : List FieldDef) (data : Payload) : Except HTTPError Unit :=
  match schema_fields with
  | [] => .ok ()
  | field :: rest =>
      if field.required && !(hasKey data field.name) then
        .error ⟨400, "Missing required field: " ++ field.name⟩
      else checkRequired rest data

/-- Lookup in `fields_map = ... for f in schema_fields` (line 17), a Python
dict comprehension in which a later duplicate name overwrites an earlier one:
hence the search runs over the reversed list. -/
def fieldsMap (schema_fields : List FieldDef) (key : String) : Option FieldDef :=
  schema_fields.reverse.find? (fun f => f.name == key)

/-- Constraint checks at the end of the payload loop of _validate_data
(lines 46-57): numeric min/max for integer and float fields, then length and
pattern for string fields. -/
def checkConstraints (f_def : FieldDef) (key : String) (value : Value) : Except HTTPError Unit :=
  if f_def.type == .integer || f_def.type == .float then
    if (match f_def.min with
        | some m => decide (numVal value < m)
        | none => false) then
      .error ⟨400, "Field " ++ key ++ " below min"⟩
    else if (match f_def.max with
        | some m => decide (numVal value > m)
        | none => false) then
      .error ⟨400, "Field " ++ key ++ " above max"⟩
    else .ok ()
  else if f_def.type == .string then
    if (match f_def.min_length with
        | some n => decide ((strVal value).length < n)
        | none => false) then
      .error ⟨400, "Field " ++ key ++ " shorter than min_length"⟩
    else if (match f_def.max_length with
        | some n => decide ((strVal value).length > n)
        | none => false) then
      .error ⟨400, "Field " ++ key ++ " longer than max_length"⟩
    else if (match f_def.pattern with
        | some r => !(r.fullmatch (strVal value))
        | none => false) then
      .error ⟨400, "Field " ++ key ++ " does not match pattern"⟩
    else .ok ()
  else .ok ()

/-- The if/elif type-check chain of _validate_data (lines 28-43): each kind is
checked by Python value-kind, a date by ISO parseability, a file as a string;
relation-typed fields fall through the chain unchecked. -/
def typeChain (f_def : FieldDef) (key : String) (value : Value) : Except HTTPError Unit :=
  if f_def.type == .string && !(isStr value) then
    .error ⟨400, "Field " ++ key ++ " must be string"⟩
  else if f_def.type == .integer && !(isInstInt value) then
    .error ⟨400, "Field " ++ key ++ " must be integer"⟩
  else if f_def.type == .float && !(isInstNum value) then
    .error ⟨400, "Field " ++ key ++ " must be float"⟩
  else if f_def.type == .boolean && !(isBool value) then
    .error ⟨400, "Field " ++ key ++ " must be boolean"⟩
  else if f_def.type == .date && !(pyFromIsoformat value) then
    .error ⟨400, "Field " ++ key ++ " must be ISO date"⟩
  else if f_def.type == .file && !(isStr value) then
    .error ⟨400, "Field " ++ key ++ " must be file URL string"⟩
  else .ok ()

/-- Body of the payload loop of _validate_data (lines 23-57) for one payload
entry: unknown-field check, then the type-check chain, then the constraint
checks. -/
def checkEntry (schema_fields : List FieldDef) (key : String) (value : Value) : Except HTTPError Unit :=
  match fieldsMap schema_fields key with
  | none => .error ⟨400, "Unknown field: " ++ key⟩
  | some f_def =>
      match typeChain f_def key value with
      | .error e => .error e
      | .ok () => checkConstraints f_def key value

/-- The payload loop of _validate_data over the payload entries in insertion
order, stopping at the first violation. -/
def checkEntries (schema_fields : List FieldDef) (data : Payload) : Except HTTPError Unit :=
  match data with
  | [] => .ok ()
  | (key, value) :: rest =>
      match checkEntry schema_fields key value with
      | .error e => .error e
      | .ok () => checkEntries schema_fields rest

/-- Model of _validate_data (src/app/crud_router.py lines 16-57): the
required-field pass over all schema fields, then the per-entry checks over the
payload in insertion order. -/
def _validate_data (schema_fields : List FieldDef) (data : Payload) : Except HTTPError Unit :=
  match checkRequired schema_fields data with
  | .error e => .error e
  | .ok () => checkEntries schema_fields data

/-- Database row models from src/app/models.py.  UUID columns are modelled by
naturals drawn from the fresh-id counter of the state; DateTime columns by the
state's clock. -/
structure EntitySchema where
  id : Nat
  tenant_id : Nat
  entity_name : String
  schema : List FieldDef
  version : Nat
deriving DecidableEq, Repr

/-- EntitySchemaVersion row: immutable history snapshot. -/
structure EntitySchemaVersion where
  id : Nat
  tenant_id : Nat
  entity_name : String
  version : Nat
  schema : List FieldDef
  created_at : Nat
deriving DecidableEq, Repr

/-- Record row. -/
structure Record where
  id : Nat
  tenant_id : Nat
  entity_name : String
  data : Payload
  created_at : Nat
  updated_at : Nat
  created_by : Nat
  updated_by : Nat
deriving DecidableEq, Repr

/-- RecordLog row: the audit trail. -/
structure RecordLog where
  id : Nat
  record_id : Nat
  tenant_id : Nat
  entity_name : String
  before_data : Payload
  after_data : Payload
  changed_at : Nat
  changed_by : Nat
deriving DecidableEq, Repr

/-- EntityPermission row; the Boolean columns default to true, as in the
SQLAlchemy column defaults. -/
structure EntityPermission where
  id : Nat
  tenant_id : Nat
  entity_name : String
  role : String
  can_read : Bool := true
  can_create : Bool := true
  can_update : Bool := true
  can_delete : Bool := true
deriving DecidableEq, Repr

/-- The four record actions named by the f-string `can_{action}` lookups. -/
inductive Action where
  | create | read | update | delete
deriving DecidableEq, Repr

/-- Model of `getattr(perm, f"can_{action}")`. -/
def EntityPermission.can (p : EntityPermission) : Action → Bool
  | .create => p.can_create
  | .read => p.can_read
  | .update => p.can_update
  | .delete => p.can_delete

/-- Whole database state: the tables as lists in insertion order, a fresh-id
counter standing for uuid4 and primary-key generation, and a clock standing
for datetime.utcnow. -/
structure DB where
  schemas : List EntitySchema
  versions : List EntitySchemaVersion
  records : List Record
  logs : List RecordLog
  perms : List EntityPermission
  nextId : Nat
  now : Nat
deriving DecidableEq, Repr

/-- The authenticated caller resolved by get_current_active_user: id,
tenant and role of the User row. -/
structure CurrentUser where
  id : Nat
  tenant_id : Nat
  role : String
deriving DecidableEq, Repr

/-- Row filter of the _check_uniques query (lines 64-70) evaluated on one
stored record: same entity and tenant, jsonb text of the stored field equal to
str of the candidate value, and, when updating, a different record id. -/
def uniqueRowHit (entity_name : String) (tenant_id : Nat) (fname : String)
    (value : Value) (record_id : Option Nat) (r : Record) : Bool :=
  r.entity_name == entity_name && r.tenant_id == tenant_id &&
  ((match pyGet r.data fname with
    | some w => jsonAstext w
    | none => none) == some (pyStr value)) &&
  (match record_id with
   | some rid => r.id != rid
   | none => true)

/-- Model of _check_uniques (src/app/crud_router.py lines 60-72). -/
def _check_uniques (schema_fields : List FieldDef) (data : Payload)
    (records : List Record) (entity_name : String) (tenant_id : Nat)
    (record_id : Option Nat) : Except HTTPError Unit :=
  match schema_fields with
  | [] => .ok ()
  | field :: rest =>
      if field.unique && hasKey data field.name then
        match pyGet data field.name with
        | some value =>
            if (records.find? (uniqueRowHit entity_name tenant_id field.name value record_id)).isSome then
              .error ⟨400, "Field " ++ field.name ++ " must be unique"⟩
            else _check_uniques rest data records entity_name tenant_id record_id
        | none => _check_uniques rest data records entity_name tenant_id record_id
      else _check_uniques rest data records entity_name tenant_id record_id

/-- Row filter of the _check_permission query (lines 78-82). -/
def permRow (tenant_id : Nat) (entity_name role : String) (p : EntityPermission) : Bool :=
  p.tenant_id == tenant_id && p.entity_name == entity_name && p.role == role

/-- Model of _check_permission (src/app/crud_router.py lines 75-86): deny with
403 when no permission row matches, or when the row's boolean for the action
is false. -/
def _check_permission (perms : List EntityPermission) (tenant_id : Nat)
    (role : String) (action : Action) (entity_name : String) : Except HTTPError Unit :=
  match perms.find? (permRow tenant_id entity_name role) with
  | none => .error ⟨403, "Not enough permissions"⟩
  | some perm =>
      if perm.can action then .ok ()
      else .error ⟨403, "Not enough permissions"⟩

/-- Row filter of the record queries in get/update/delete (lines 173-180,
194-201, 240-247): id, entity name and tenant must all match. -/
def recordRow (record_id : Nat) (entity_name : String) (tenant_id : Nat) (r : Record) : Bool :=
  r.id == record_id && r.entity_name == entity_name && r.tenant_id == tenant_id

/-- Row filter of the EntitySchema queries of the crud handlers
(lines 99-106 and 205-212). -/
def schemaRow (entity_name : String) (tenant_id : Nat) (s : EntitySchema) : Bool :=
  s.entity_name == entity_name && s.tenant_id == tenant_id

/-- The inline uniqueness loop of create_record (lines 113-133).  Unlike
_check_uniques it skips a candidate that is absent or None (`payload.get`
then `if value is None: continue`), and its error detail interpolates the
duplicate value. -/
def createInlineUnique (schema_fields : List FieldDef) (payload : Payload)
    (records : List Record) (tenant_id : Nat) (entity_name : String) : Except HTTPError Unit :=
  match schema_fields with
  | [] => .ok ()
  | field_def :: rest =>
      if field_def.unique then
        let value := (pyGet payload field_def.name).getD .vNull
        if value == .vNull then
          createInlineUnique rest payload records tenant_id entity_name
        else if (records.find? (uniqueRowHit entity_name tenant_id field_def.name value none)).isSome then
          .error ⟨400, field_def.name ++ " must be unique. Duplicate value: " ++ pyStr value⟩
        else createInlineUnique rest payload records tenant_id entity_name
      else createInlineUnique rest payload records tenant_id entity_name

/-- Model of create_record (src/app/crud_router.py lines 92-148): permission,
schema lookup, validation, the inline uniqueness loop, the (duplicated)
second validation, _check_uniques, then persist the new record and return its
payload. -/
def create_record (entity_name : String) (db : DB) (u : CurrentUser)
    (payload : Payload) : Except HTTPError (DB × Payload) :=
  match _check_permission db.perms u.tenant_id u.role .create entity_name with
  | .error e => .error e
  | .ok () =>
    match db.schemas.find? (schemaRow entity_name u.tenant_id) with
    | none => .error ⟨404, "Entity not found"⟩
    | some schema_obj =>
      match _validate_data schema_obj.schema payload with
      | .error e => .error e
      | .ok () =>
        match createInlineUnique schema_obj.schema payload db.records u.tenant_id entity_name with
        | .error e => .error e
        | .ok () =>
          match _validate_data schema_obj.schema payload with
          | .error e => .error e
          | .ok () =>
            match _check_uniques schema_obj.schema payload db.records entity_name u.tenant_id none with
            | .error e => .error e
            | .ok () =>
              let record : Record :=
                { id := db.nextId, tenant_id := u.tenant_id, entity_name := entity_name,
                  data := payload, created_at := db.now, updated_at := db.now,
                  created_by := u.id, updated_by := u.id }
              .ok ({ db with records := db.records ++ [record], nextId := db.nextId + 1 },
                   record.data)

/-- Model of list_records (lines 150-164): permission, then all records of the
caller's tenant for this entity. -/
def list_records (entity_name : String) (db : DB) (u : CurrentUser) :
    Except HTTPError (List Record) :=
  match _check_permission db.perms u.tenant_id u.role .read entity_name with
  | .error e => .error e
  | .ok () =>
      .ok (db.records.filter (fun r => r.entity_name == entity_name && r.tenant_id == u.tenant_id))

/-- Model of get_record (lines 166-184): permission, then the record matching
id, entity and tenant, or 404. -/
def get_record (entity_name : String) (db : DB) (u : CurrentUser)
    (record_id : Nat) : Except HTTPError Record :=
  match _check_permission db.perms u.tenant_id u.role .read entity_name with
  | .error e => .error e
  | .ok () =>
      match db.records.find? (recordRow record_id entity_name u.tenant_id) with
      | none => .error ⟨404, "Record not found"⟩
      | some record => .ok record

/-- Model of update_record (lines 186-231): permission, record lookup, schema
lookup, validation, uniqueness with the record excluded, then replace the
payload wholesale, set updated_by, and append one RecordLog carrying the
before and after payloads. -/
def update_record (entity_name : String) (db : DB) (u : CurrentUser)
    (record_id : Nat) (payload : Payload) : Except HTTPError (DB × Record) :=
  match _check_permission db.perms u.tenant_id u.role .update entity_name with
  | .error e => .error e
  | .ok () =>
    match db.records.find? (recordRow record_id entity_name u.tenant_id) with
    | none => .error ⟨404, "Record not found"⟩
    | some record =>
      match db.schemas.find? (schemaRow entity_name u.tenant_id) with
      | none => .error ⟨404, "Entity not found"⟩
      | some schema_obj =>
        match _validate_data schema_obj.schema payload with
        | .error e => .error e
        | .ok () =>
          match _check_uniques schema_obj.schema payload db.records entity_name u.tenant_id (some record.id) with
          | .error e => .error e
          | .ok () =>
            let updated : Record :=
              { record with data := payload, updated_by := u.id, updated_at := db.now }
            let log : RecordLog :=
              { id := db.nextId, record_id := record.id, tenant_id := u.tenant_id,
                entity_name := entity_name, before_data := record.data,
                after_data := payload, changed_at := db.now, changed_by := u.id }
            .ok ({ db with
                     records := db.records.map (fun r => if r.id == record.id then updated else r),
                     logs := db.logs ++ [log],
                     nextId := db.nextId + 1 },
                 updated)

/-- Model of delete_record (lines 233-253): permission, record lookup, then
remove the row.  No RecordLog is written. -/
def delete_record (entity_name : String) (db : DB) (u : CurrentUser)
    (record_id : Nat) : Except HTTPError (DB × String) :=
  match _check_permission db.perms u.tenant_id u.role .delete entity_name with
  | .error e => .error e
  | .ok () =>
      match db.records.find? (recordRow record_id entity_name u.tenant_id) with
      | none => .error ⟨404, "Record not found"⟩
      | some record =>
          .ok ({ db with records := db.records.filter (fun r => !(r.id == record.id)) },
               "deleted")

/-- Model of the get_admin_user dependency (src/app/auth.py lines 80-83). -/
def get_admin_user (u : CurrentUser) : Except HTTPError CurrentUser :=
  if u.role == "admin" then .ok u
  else .error ⟨403, "Not enough permissions"⟩

/-- Request body of the schema declaration endpoint
(src/app/schemas.py EntitySchemaCreate). -/
structure EntitySchemaCreate where
  entity_name : String
  fields : List FieldDef
deriving DecidableEq, Repr

/-- Request body of the permission endpoint (src/app/schemas.py
PermissionBase); the booleans default to true. -/
structure PermissionBase where
  role : String
  can_read : Bool := true
  can_create : Bool := true
  can_update : Bool := true
  can_delete : Bool := true
deriving DecidableEq, Repr

/-- Row filter of the duplicate check in create_entity_schema
(src/app/routers/schemas.py lines 20-24, a filter_by on tenant and name). -/
def schemaRowByTenant (tenant_id : Nat) (entity_name : String) (s : EntitySchema) : Bool :=
  s.tenant_id == tenant_id && s.entity_name == entity_name

/-- Model of create_entity_schema (src/app/routers/schemas.py lines 12-61):
admin gate, duplicate check (400), then insert the version-1 schema, its
version-1 history snapshot, and the default all-true permission rows for the
roles admin and user. -/
def create_entity_schema (schema_in : EntitySchemaCreate) (db : DB)
    (u : CurrentUser) : Except HTTPError (DB × EntitySchema) :=
  match get_admin_user u with
  | .error e => .error e
  | .ok current_user =>
    match db.schemas.find? (schemaRowByTenant current_user.tenant_id schema_in.entity_name) with
    | some _ =>
        .error ⟨400, "Entity \x27" ++ schema_in.entity_name ++ "\x27 already exists."⟩
    | none =>
        let fields := schema_in.fields
        let entity_schema : EntitySchema :=
          { id := db.nextId, tenant_id := current_user.tenant_id,
            entity_name := schema_in.entity_name, schema := fields, version := 1 }
        let snapshot : EntitySchemaVersion :=
          { id := db.nextId + 1, tenant_id := current_user.tenant_id,
            entity_name := schema_in.entity_name, version := entity_schema.version,
            schema := fields, created_at := db.now }
        let permAdmin : EntityPermission :=
          { id := db.nextId + 2, tenant_id := current_user.tenant_id,
            entity_name := schema_in.entity_name, role := "admin" }
        let permUser : EntityPermission :=
          { id := db.nextId + 3, tenant_id := current_user.tenant_id,
            entity_name := schema_in.entity_name, role := "user" }
        .ok ({ db with
                 schemas := db.schemas ++ [entity_schema],
                 versions := db.versions ++ [snapshot],
                 perms := db.perms ++ [permAdmin, permUser],
                 nextId := db.nextId + 4 },
             entity_schema)

/-- Model of list_entity_schemas (lines 64-73). -/
def list_entity_schemas (db : DB) (u : CurrentUser) : List EntitySchema :=
  db.schemas.filter (fun s => s.tenant_id == u.tenant_id)

/-- Model of update_entity_schema (lines 76-106): admin gate, schema lookup
(404), replace the field list, increment the version, append a history
snapshot at the new version. -/
def update_entity_schema (entity_name : String) (fields : List FieldDef)
    (db : DB) (u : CurrentUser) : Except HTTPError (DB × EntitySchema) :=
  match get_admin_user u with
  | .error e => .error e
  | .ok current_user =>
    match db.schemas.find? (schemaRow entity_name current_user.tenant_id) with
    | none => .error ⟨404, "Entity not found"⟩
    | some schema_obj =>
        let updated : EntitySchema :=
          { schema_obj with schema := fields, version := schema_obj.version + 1 }
        let snapshot : EntitySchemaVersion :=
          { id := db.nextId, tenant_id := current_user.tenant_id,
            entity_name := entity_name, version := updated.version,
            schema := fields, created_at := db.now }
        .ok ({ db with
                 schemas := db.schemas.map (fun s => if s.id == schema_obj.id then updated else s),
                 versions := db.versions ++ [snapshot],
                 nextId := db.nextId + 1 },
             updated)

/-- Row filter of the EntitySchemaVersion lookup in rollback (lines 126-134). -/
def versionRow (entity_name : String) (tenant_id : Nat) (version : Nat)
    (v : EntitySchemaVersion) : Bool :=
  v.entity_name == entity_name && v.tenant_id == tenant_id && v.version == version

/-- Model of rollback_entity_schema (src/app/routers/schemas.py lines
109-149): admin gate, schema lookup (404), target version lookup (404), then
copy the target's field list into the current schema, increment the version,
and append a history snapshot carrying the restored field list at the new
version number. -/
def rollback_entity_schema (entity_name : String) (version : Nat) (db : DB)
    (u : CurrentUser) : Except HTTPError (DB × EntitySchema) :=
  match get_admin_user u with
  | .error e => .error e
  | .ok current_user =>
    match db.schemas.find? (schemaRow entity_name current_user.tenant_id) with
    | none => .error ⟨404, "Entity not found"⟩
    | some schema_obj =>
      match db.versions.find? (versionRow entity_name current_user.tenant_id version) with
      | none => .error ⟨404, "Version not found"⟩
      | some version_obj =>
          let updated : EntitySchema :=
            { schema_obj with schema := version_obj.schema, version := schema_obj.version + 1 }
          let snapshot : EntitySchemaVersion :=
            { id := db.nextId, tenant_id := current_user.tenant_id,
              entity_name := entity_name, version := updated.version,
              schema := version_obj.schema, created_at := db.now }
          .ok ({ db with
                   schemas := db.schemas.map (fun s => if s.id == schema_obj.id then updated else s),
                   versions := db.versions ++ [snapshot],
                   nextId := db.nextId + 1 },
               updated)

/-- Row filter of the permission lookup in set_permissions (lines 160-167);
the source lists entity first, then tenant, then role, a reordering of the
conjuncts of permRow. -/
def setPermRow (entity_name : String) (tenant_id : Nat) (role : String)
    (p : EntityPermission) : Bool :=
  p.entity_name == entity_name && p.tenant_id == tenant_id && p.role == role

/-- Model of set_permissions (src/app/routers/schemas.py lines 152-182):
admin gate, then update the matching permission row in place, or insert a new
row for (tenant, entity, role), and set its four booleans from the request
body.  The role field inside the body is ignored; the path role is used. -/
def set_permissions (entity_name role : String) (perm_in : PermissionBase)
    (db : DB) (u : CurrentUser) : Except HTTPError (DB × EntityPermission) :=
  match get_admin_user u with
  | .error e => .error e
  | .ok current_user =>
    match db.perms.find? (setPermRow entity_name current_user.tenant_id role) with
    | some perm =>
        let updated : EntityPermission :=
          { perm with can_read := perm_in.can_read, can_create := perm_in.can_create,
                      can_update := perm_in.can_update, can_delete := perm_in.can_delete }
        .ok ({ db with
                 perms := db.perms.map (fun p => if p.id == perm.id then updated else p) },
             updated)
    | none =>
        let perm : EntityPermission :=
          { id := db.nextId, tenant_id := current_user.tenant_id,
            entity_name := entity_name, role := role }
        let updated : EntityPermission :=
          { perm with can_read := perm_in.can_read, can_create := perm_in.can_create,
                      can_update := perm_in.can_update, can_delete := perm_in.can_delete }
        .ok ({ db with perms := db.perms ++ [updated], nextId := db.nextId + 1 },
             updated)

/-- Claim C5 as stated, phase (2): every payload key not in the field list is
rejected as unknown, before any type check of phase (3) runs. -/
def claimUnknownPhase (schema_fields : List FieldDef) (data : Payload) : Except HTTPError Unit :=
  match data with
  | [] => .ok ()
  | (key, _) :: rest =>
      if (fieldsMap schema_fields key).isNone then
        .error ⟨400, "Unknown field: " ++ key⟩
      else claimUnknownPhase schema_fields rest

/-- Claim C5 as stated, phase (3): the declared type of every present key is
checked; unknown keys were already rejected by the previous phase. -/
def claimTypePhase (schema_fields : List FieldDef) (data : Payload) : Except HTTPError Unit :=
  match data with
  | [] => .ok ()
  | (key, value) :: rest =>
      match fieldsMap schema_fields key with
      | none => claimTypePhase schema_fields rest
      | some f_def =>
          match typeChain f_def key value with
          | .error e => .error e
          | .ok () => claimTypePhase schema_fields rest

/-- Claim C5 as stated, final phase: the numeric and string constraints of
every present key. -/
def claimConstraintPhase (schema_fields : List FieldDef) (data : Payload) : Except HTTPError Unit :=
  match data with
  | [] => .ok ()
  | (key, value) :: rest =>
      match fieldsMap schema_fields key with
      | none => claimConstraintPhase schema_fields rest
      | some f_def =>
          match checkConstraints f_def key value with
          | .error e => .error e
          | .ok () => claimConstraintPhase schema_fields rest

/-- Claim C5 as stated: validation runs as four sequential phases, each one
completed over the whole input before the next starts — (1) required fields,
(2) unknown payload keys, (3) declared types of present keys, then the
numeric and string constraints. -/
def validateClaimPhased (schema_fields : List FieldDef) (data : Payload) : Except HTTPError Unit :=
  match checkRequired schema_fields data with
  | .error e => .error e
  | .ok () =>
    match claimUnknownPhase schema_fields data with
    | .error e => .error e
    | .ok () =>
      match claimTypePhase schema_fields data with
      | .error e => .error e
      | .ok () => claimConstraintPhase schema_fields data

/-- Amended claim C5, per-key check: an unknown key fails, then the declared
type is checked, then the constraints.  The field definition is the one with
the key's name, unique within a schema. -/
def amendedKeyCheck (schema_fields : List FieldDef) (key : String) (value : Value) : Except HTTPError Unit :=
  match schema_fields.find? (fun f => f.name == key) with
  | none => .error ⟨400, "Unknown field: " ++ key⟩
  | some f_def =>
      match typeChain f_def key value with
      | .error e => .error e
      | .ok () => checkConstraints f_def key value

/-- Amended claim C5, payload loop over the keys in insertion order. -/
def amendedEntriesLoop (schema_fields : List FieldDef) (data : Payload) : Except HTTPError Unit :=
  match data with
  | [] => .ok ()
  | (key, value) :: rest =>
      match amendedKeyCheck schema_fields key value with
      | .error e => .error e
      | .ok () => amendedEntriesLoop schema_fields rest

/-- Amended claim C5: the validator fails fast at the first violation found
when checking, first, every required field in declaration order for presence,
and then each payload key in insertion order — unknown field, then declared
type, then constraints, all for one key before the next key is examined. -/
def validateAmendedSpec (schema_fields : List FieldDef) (data : Payload) : Except HTTPError Unit :=
  match schema_fields.find? (fun f => f.required && !(hasKey data f.name)) with
  | some f => .error ⟨400, "Missing required field: " ++ f.name⟩
  | none => amendedEntriesLoop schema_fields data

/-- Claim C7 as stated: one string-representation function applied to both the
stored value and the candidate value. -/
def claimUniqueRowHit (entity_name : String) (tenant_id : Nat) (fname : String)
    (value : Value) (record_id : Option Nat) (r : Record) : Bool :=
  r.entity_name == entity_name && r.tenant_id == tenant_id &&
  ((pyGet r.data fname).map pyStr == some (pyStr value)) &&
  (match record_id with
   | some rid => r.id != rid
   | none => true)

/-- Claim C7 as stated, lifted over the unique fields as _check_uniques is. -/
def check_uniques_claim (schema_fields : List FieldDef) (data : Payload)
    (records : List Record) (entity_name : String) (tenant_id : Nat)
    (record_id : Option Nat) : Except HTTPError Unit :=
  match schema_fields with
  | [] => .ok ()
  | field :: rest =>
      if field.unique && hasKey data field.name then
        match pyGet data field.name with
        | some value =>
            if (records.find? (claimUniqueRowHit entity_name tenant_id field.name value record_id)).isSome then
              .error ⟨400, "Field " ++ field.name ++ " must be unique"⟩
            else check_uniques_claim rest data records entity_name tenant_id record_id
        | none => check_uniques_claim rest data records entity_name tenant_id record_id
      else check_uniques_claim rest data records entity_name tenant_id record_id

/-- Database text of a record's stored field: the jsonb text extraction
composed over the key lookup; none both for a missing key and for a stored
JSON null (SQL NULL either way). -/
def storedText (r : Record) (fname : String) : Option String :=
  (pyGet r.data fname).bind jsonAstext

/-- Requested flag of a permission request body for one action, mirroring the
four assignments of set_permissions. -/
def PermissionBase.can (b : PermissionBase) : Action → Bool
  | .create => b.can_create
  | .read => b.can_read
  | .update => b.can_update
  | .delete => b.can_delete

/-- Concrete fixtures used by the witness theorems. -/
def fX : FieldDef := { name := "x", type := .integer }

/-- Unique string field from the spec's uniqueness example. -/
def fEmail : FieldDef := { name := "email", type := .string, unique := true }

/-- Unique boolean field exercising the text-coercion asymmetry. -/
def fFlag : FieldDef := { name := "flag", type := .boolean, unique := true }

/-- Two-field schema for the record-engine witnesses. -/
def empFields : List FieldDef := [fX, fEmail]

/-- Field list of version 1 in the rollback witness. -/
def fields1W : List FieldDef := [fX]

/-- Field list of version 3 in the rollback witness. -/
def fields3W : List FieldDef := [fX, fEmail, fFlag]

/-- Admin caller of tenant 1. -/
def adminW : CurrentUser := ⟨100, 1, "admin"⟩

/-- Plain user of tenant 1. -/
def userW : CurrentUser := ⟨101, 1, "user"⟩

/-- User of tenant 2, for the isolation witness. -/
def outsiderW : CurrentUser := ⟨200, 2, "user"⟩

/-- Empty database state. -/
def dbEmptyW : DB := ⟨[], [], [], [], [], 0, 5⟩

/-- Record of tenant 1 targeted by tenant 2's caller in the isolation
witness. -/
def recT1 : Record := ⟨7, 1, "emp", [("x", .vInt 1)], 0, 0, 100, 100⟩

/-- Isolation witness state: tenant 2's caller holds an all-true permission
row, and record 7 exists only under tenant 1. -/
def dbIso : DB :=
  ⟨[], [], [recT1], [], [⟨50, 2, "emp", "user", true, true, true, true⟩], 60, 5⟩

/-- Schema row of the update witness. -/
def schemaEmpW : EntitySchema := ⟨0, 1, "emp", empFields, 1⟩

/-- Record updated in the update witness. -/
def recUpd : Record := ⟨4, 1, "emp", [("x", .vInt 1)], 5, 5, 101, 101⟩

/-- Update witness state: the emp schema, one record, the seeded permission
rows. -/
def dbUpd : DB :=
  ⟨[schemaEmpW], [⟨1, 1, "emp", 1, empFields, 5⟩], [recUpd], [],
   [⟨2, 1, "emp", "admin", true, true, true, true⟩,
    ⟨3, 1, "emp", "user", true, true, true, true⟩], 6, 9⟩

/-- Rollback witness schema, currently at version 3. -/
def sV3 : EntitySchema := ⟨0, 1, "emp", fields3W, 3⟩

/-- Rollback witness state with snapshots of versions 1, 2 and 3. -/
def dbV3 : DB :=
  ⟨[sV3],
   [⟨1, 1, "emp", 1, fields1W, 5⟩, ⟨2, 1, "emp", 2, empFields, 6⟩,
    ⟨3, 1, "emp", 3, fields3W, 7⟩],
   [], [], [], 10, 9⟩

/-- Field list of the C5 counterexample: one integer field named a. -/
def c5Fields : List FieldDef := [{ name := "a", type := .integer }]

/-- Payload of the C5 counterexample: first a type-violating known key, then
an unknown key. -/
def c5Payload : Payload := [("a", .vStr "x"), ("b", .vInt 1)]

/-- Stored record of the C7 counterexample: a boolean true at a unique
field. -/
def recFlag : Record := ⟨9, 1, "e", [("flag", .vBool true)], 0, 0, 0, 0⟩

/-- Stored record of the C7 example: string "1" at the unique email field. -/
def recEmailStr1 : Record := ⟨9, 1, "e", [("email", .vStr "1")], 0, 0, 0, 0⟩

/-- Bridge between Python key membership and lookup success. -/
theorem hasKey_iff_isSome (d : Payload) (k : String) :
    hasKey d k = true ↔ (pyGet d k).isSome := by
  simp [hasKey, pyGet, List.any_eq_true, List.find?_isSome]

/-- A key that is not in the payload looks up to none. -/
theorem pyGet_eq_none_of_hasKey_false {d : Payload} {k : String}
    (h : hasKey d k = false) : pyGet d k = none := by
  have := (hasKey_iff_isSome d k)
  cases hg : pyGet d k with
  | none => rfl
  | some v => rw [h, hg] at this; simp at this

/-- find? only looks at the predicate's values. -/
theorem find?_congr {α : Type} {p q : α → Bool} (h : ∀ x, p x = q x) :
    ∀ l : List α, l.find? p = l.find? q := by
  intro l
  induction l with
  | nil => rfl
  | cons x xs ih => rw [List.find?_cons, List.find?_cons, h x, ih]

/-- Replacing, by id, the row that find? located with a row that still
satisfies the predicate makes find? return the replacement. -/
theorem find?_map_ite_id {l : List EntityPermission} {pred : EntityPermission → Bool}
    {perm updated : EntityPermission}
    (hfind : l.find? pred = some perm) (hupd : pred updated = true) :
    (l.map (fun p => if p.id == perm.id then updated else p)).find? pred = some updated := by
  induction l with
  | nil => simp at hfind
  | cons x xs ih =>
      rw [List.find?_cons] at hfind
      cases hx : pred x with
      | true =>
          rw [hx] at hfind
          injection hfind with hxp
          subst hxp
          rw [List.map_cons, List.find?_cons, if_pos (beq_self_eq_true x.id), hupd]
      | false =>
          rw [hx] at hfind
          rw [List.map_cons, List.find?_cons]
          cases hid : (x.id == perm.id) with
          | true => rw [if_pos rfl, hupd]
          | false =>
              rw [if_neg (by simp), hx]
              exact ih hfind

/-- Propositional reading of the record row filter. -/
theorem recordRow_iff (rid : Nat) (ename : String) (tid : Nat) (r : Record) :
    recordRow rid ename tid r = true ↔
      r.id = rid ∧ r.entity_name = ename ∧ r.tenant_id = tid := by
  simp [recordRow, and_assoc]

/-- Inversion of a successful get_record. -/
theorem get_record_ok_inv {ename : String} {db : DB} {u : CurrentUser}
    {rid : Nat} {r : Record} (h : get_record ename db u rid = .ok r) :
    _check_permission db.perms u.tenant_id u.role .read ename = .ok () ∧
    db.records.find? (recordRow rid ename u.tenant_id) = some r := by
  unfold get_record at h
  split at h
  · simp at h
  · split at h
    · simp at h
    · rename_i hperm a rec hfind
      simp at h
      subst h
      exact ⟨hperm, hfind⟩

/-- Inversion of a successful delete_record. -/
theorem delete_record_ok_inv {ename : String} {db : DB} {u : CurrentUser}
    {rid : Nat} {db' : DB} {st : String}
    (h : delete_record ename db u rid = .ok (db', st)) :
    ∃ record, _check_permission db.perms u.tenant_id u.role .delete ename = .ok () ∧
      db.records.find? (recordRow rid ename u.tenant_id) = some record ∧
      st = "deleted" ∧
      db' = { db with records := db.records.filter (fun r => !(r.id == record.id)) } := by
  unfold delete_record at h
  split at h
  · simp at h
  · split at h
    · simp at h
    · rename_i hperm a record hfind
      simp at h
      exact ⟨record, hperm, hfind, h.2.symm, h.1.symm⟩

/-- Inversion of a successful update_record. -/
theorem update_record_ok_inv {ename : String} {db : DB} {u : CurrentUser}
    {rid : Nat} {payload : Payload} {db' : DB} {rec : Record}
    (h : update_record ename db u rid payload = .ok (db', rec)) :
    ∃ record schema_obj,
      _check_permission db.perms u.tenant_id u.role .update ename = .ok () ∧
      db.records.find? (recordRow rid ename u.tenant_id) = some record ∧
      db.schemas.find? (schemaRow ename u.tenant_id) = some schema_obj ∧
      _validate_data schema_obj.schema payload = .ok () ∧
      _check_uniques schema_obj.schema payload db.records ename u.tenant_id (some record.id) = .ok () ∧
      rec = { record with data := payload, updated_by := u.id, updated_at := db.now } ∧
      db' = { db with
              records := db.records.map (fun r => if r.id == record.id then rec else r),
              logs := db.logs ++ [⟨db.nextId, record.id, u.tenant_id, ename, record.data, payload, db.now, u.id⟩],
              nextId := db.nextId + 1 } := by
  unfold update_record at h
  split at h
  · simp at h
  · split at h
    · simp at h
    · split at h
      · simp at h
      · split at h
        · simp at h
        · split at h
          · simp at h
          · rename_i hperm a record hrec b schema_obj hschema c hval d huniq
            simp only [Except.ok.injEq, Prod.mk.injEq] at h
            obtain ⟨hdb, hr⟩ := h
            subst hdb
            subst hr
            exact ⟨record, schema_obj, hperm, hrec, hschema, hval, huniq, rfl, rfl⟩

/-- Inversion of a successful create_record. -/
theorem create_record_ok_inv {ename : String} {db : DB} {u : CurrentUser}
    {payload : Payload} {db' : DB} {d : Payload}
    (h : create_record ename db u payload = .ok (db', d)) :
    _check_permission db.perms u.tenant_id u.role .create ename = .ok () ∧
    d = payload ∧
    db' = { db with
            records := db.records ++
              [⟨db.nextId, u.tenant_id, ename, payload, db.now, db.now, u.id, u.id⟩],
            nextId := db.nextId + 1 } := by
  unfold create_record at h
  split at h
  · simp at h
  · split at h
    · simp at h
    · split at h
      · simp at h
      · split at h
        · simp at h
        · split at h
          · simp at h
          · split at h
            · simp at h
            · rename_i hperm a schema_obj hschema b hval1 c hinline d hval2 e huniq
              simp only [Except.ok.injEq, Prod.mk.injEq] at h
              exact ⟨hperm, h.2.symm, h.1.symm⟩

/-- Claim C1: every record operation is tenant-scoped.  Records returned by
get and list, the record state replaced by update, the record created by
create, and the records removed by delete all belong to the caller's tenant;
and when the caller's permission check passes but no record of the caller's
tenant matches the id (in particular when the id exists only under another
tenant), get, update and delete fail with 404 Record not found, never with
403. -/
theorem c1_tenant_isolation :
    (∀ (ename : String) (db : DB) (u : CurrentUser) (rid : Nat) (r : Record),
        get_record ename db u rid = .ok r → r.tenant_id = u.tenant_id) ∧
    (∀ (ename : String) (db : DB) (u : CurrentUser) (rs : List Record),
        list_records ename db u = .ok rs → ∀ r ∈ rs, r.tenant_id = u.tenant_id) ∧
    (∀ (ename : String) (db : DB) (u : CurrentUser) (rid : Nat) (payload : Payload)
        (db' : DB) (rec : Record),
        update_record ename db u rid payload = .ok (db', rec) →
        rec.tenant_id = u.tenant_id ∧ ∀ r ∈ db'.records, r ∈ db.records ∨ r = rec) ∧
    (∀ (ename : String) (db : DB) (u : CurrentUser) (payload : Payload)
        (db' : DB) (d : Payload),
        create_record ename db u payload = .ok (db', d) →
        ∀ r ∈ db'.records, r ∈ db.records ∨ r.tenant_id = u.tenant_id) ∧
    (∀ (ename : String) (db : DB) (u : CurrentUser) (rid : Nat) (db' : DB) (st : String),
        (db.records.map Record.id).Nodup →
        delete_record ename db u rid = .ok (db', st) →
        ∀ r ∈ db.records, r ∉ db'.records → r.tenant_id = u.tenant_id) ∧
    (∀ (ename : String) (db : DB) (u : CurrentUser) (rid : Nat),
        (¬ ∃ r ∈ db.records, r.id = rid ∧ r.entity_name = ename ∧ r.tenant_id = u.tenant_id) →
        (_check_permission db.perms u.tenant_id u.role .read ename = .ok () →
          get_record ename db u rid = .error ⟨404, "Record not found"⟩) ∧
        (∀ payload, _check_permission db.perms u.tenant_id u.role .update ename = .ok () →
          update_record ename db u rid payload = .error ⟨404, "Record not found"⟩) ∧
        (_check_permission db.perms u.tenant_id u.role .delete ename = .ok () →
          delete_record ename db u rid = .error ⟨404, "Record not found"⟩)) := by
  refine ⟨?_, ?_, ?_, ?_, ?_, ?_⟩
  · intro ename db u rid r h
    obtain ⟨-, hfind⟩ := get_record_ok_inv h
    have hrow := List.find?_some hfind
    rw [recordRow_iff] at hrow
    exact hrow.2.2
  · intro ename db u rs h r hr
    unfold list_records at h
    split at h
    · simp at h
    · simp at h
      subst h
      have hp := List.of_mem_filter hr
      simp at hp
      exact hp.2
  · intro ename db u rid payload db' rec h
    obtain ⟨record, schema_obj, hperm, hrec, hschema, hval, huniq, hrecEq, hdbEq⟩ :=
      update_record_ok_inv h
    have hrow := List.find?_some hrec
    rw [recordRow_iff] at hrow
    constructor
    · rw [hrecEq]
      exact hrow.2.2
    · intro r hr
      rw [hdbEq] at hr
      simp only [List.mem_map] at hr
      obtain ⟨orig, horigMem, horigEq⟩ := hr
      by_cases hid : (orig.id == record.id) = true
      · right
        rw [← horigEq, if_pos hid]
      · left
        rw [← horigEq, if_neg hid]
        exact horigMem
  · intro ename db u payload db' d h r hr
    obtain ⟨hperm, hd, hdbEq⟩ := create_record_ok_inv h
    rw [hdbEq] at hr
    simp only [List.mem_append, List.mem_singleton] at hr
    cases hr with
    | inl hmem => exact Or.inl hmem
    | inr heq => exact Or.inr (by rw [heq])
  · intro ename db u rid db' st hnd h r hrmem hrnot
    obtain ⟨record, hperm, hfind, hst, hdbEq⟩ := delete_record_ok_inv h
    have hrow := List.find?_some hfind
    rw [recordRow_iff] at hrow
    have hrecMem := List.mem_of_find?_eq_some hfind
    by_cases hid : r.id = record.id
    · have hreq : r = record := List.inj_on_of_nodup_map hnd hrmem hrecMem (by rw [hid])
      rw [hreq]
      exact hrow.2.2
    · exfalso
      apply hrnot
      rw [hdbEq]
      refine List.mem_filter.mpr ⟨hrmem, ?_⟩
      simp [hid]
  · intro ename db u rid hnone
    have hfindnone : db.records.find? (recordRow rid ename u.tenant_id) = none := by
      rw [List.find?_eq_none]
      intro r hr hcontra
      exact hnone ⟨r, hr, (recordRow_iff rid ename u.tenant_id r).mp hcontra⟩
    refine ⟨?_, ?_, ?_⟩
    · intro hperm
      unfold get_record
      rw [hperm, hfindnone]
    · intro payload hperm
      unfold update_record
      rw [hperm, hfindnone]
    · intro hperm
      unfold delete_record
      rw [hperm, hfindnone]

/-- Claim C8: a successful update appends exactly one RecordLog entry whose
before payload is the record's payload prior to the update and whose after
payload is the new payload; successful create and delete append none. -/
theorem c8_audit_log :
    (∀ (ename : String) (db : DB) (u : CurrentUser) (rid : Nat) (payload : Payload)
        (db' : DB) (rec : Record) (old : Record),
        db.records.find? (recordRow rid ename u.tenant_id) = some old →
        update_record ename db u rid payload = .ok (db', rec) →
        db'.logs = db.logs ++
          [⟨db.nextId, old.id, u.tenant_id, ename, old.data, payload, db.now, u.id⟩]) ∧
    (∀ (ename : String) (db : DB) (u : CurrentUser) (payload : Payload)
        (db' : DB) (d : Payload),
        create_record ename db u payload = .ok (db', d) → db'.logs = db.logs) ∧
    (∀ (ename : String) (db : DB) (u : CurrentUser) (rid : Nat) (db' : DB) (st : String),
        delete_record ename db u rid = .ok (db', st) → db'.logs = db.logs) := by
  refine ⟨?_, ?_, ?_⟩
  · intro ename db u rid payload db' rec old hold h
    obtain ⟨record, schema_obj, hperm, hrec, hschema, hval, huniq, hrecEq, hdbEq⟩ :=
      update_record_ok_inv h
    rw [hold] at hrec
    injection hrec with hoe
    subst hoe
    rw [hdbEq]
  · intro ename db u payload db' d h
    obtain ⟨hperm, hd, hdbEq⟩ := create_record_ok_inv h
    rw [hdbEq]
  · intro ename db u rid db' st h
    obtain ⟨record, hperm, hfind, hst, hdbEq⟩ := delete_record_ok_inv h
    rw [hdbEq]

/-- Claim C10: a successful update replaces the record's payload wholesale
and sets updated_by to the acting user, while id, tenant, entity name,
created_at and created_by stay unchanged. -/
theorem c10_update_frame :
    ∀ (ename : String) (db : DB) (u : CurrentUser) (rid : Nat) (payload : Payload)
      (db' : DB) (rec : Record) (old : Record),
      db.records.find? (recordRow rid ename u.tenant_id) = some old →
      update_record ename db u rid payload = .ok (db', rec) →
      rec.data = payload ∧ rec.updated_by = u.id ∧ rec.id = old.id ∧
      rec.tenant_id = old.tenant_id ∧ rec.entity_name = old.entity_name ∧
      rec.created_at = old.created_at ∧ rec.created_by = old.created_by ∧
      db'.records = db.records.map (fun r => if r.id == old.id then rec else r) := by
  intro ename db u rid payload db' rec old hold h
  obtain ⟨record, schema_obj, hperm, hrec, hschema, hval, huniq, hrecEq, hdbEq⟩ :=
    update_record_ok_inv h
  rw [hold] at hrec
  injection hrec with hoe
  subst hoe
  subst hrecEq
  refine ⟨rfl, rfl, rfl, rfl, rfl, rfl, rfl, ?_⟩
  rw [hdbEq]

/-- Inversion of the admin gate: success returns the caller unchanged and
means the caller's role is admin. -/
theorem get_admin_user_ok_inv {u cu : CurrentUser} (h : get_admin_user u = .ok cu) :
    cu = u ∧ u.role = "admin" := by
  unfold get_admin_user at h
  split at h
  · rename_i hr
    simp at h
    exact ⟨h.symm, by simpa using hr⟩
  · simp at h

/-- The two permission row filters test the same conjuncts in a different
order. -/
theorem permRow_eq_setPermRow (tid : Nat) (ename role : String) (p : EntityPermission) :
    permRow tid ename role p = setPermRow ename tid role p := by
  unfold permRow setPermRow
  rw [Bool.and_comm (p.tenant_id == tid)]

/-- Claim C2: the permission gate fails with 403 when no EntityPermission row
exists for (tenant, entity, role); when a row exists it fails with 403 unless
the row's boolean for the action is true; and after set_permissions creates
or updates the row with the action allowed, the same check succeeds. -/
theorem c2_permission_gate :
    (∀ (perms : List EntityPermission) (tid : Nat) (role ename : String) (action : Action),
        perms.find? (permRow tid ename role) = none →
        _check_permission perms tid role action ename =
          .error ⟨403, "Not enough permissions"⟩) ∧
    (∀ (perms : List EntityPermission) (tid : Nat) (role ename : String) (action : Action)
        (p : EntityPermission),
        perms.find? (permRow tid ename role) = some p →
        _check_permission perms tid role action ename =
          (if p.can action then .ok () else .error ⟨403, "Not enough permissions"⟩)) ∧
    (∀ (ename role : String) (perm_in : PermissionBase) (db : DB) (u : CurrentUser)
        (db' : DB) (p' : EntityPermission) (action : Action),
        set_permissions ename role perm_in db u = .ok (db', p') →
        perm_in.can action = true →
        _check_permission db'.perms u.tenant_id role action ename = .ok ()) := by
  refine ⟨?_, ?_, ?_⟩
  · intro perms tid role ename action hfind
    unfold _check_permission
    rw [hfind]
  · intro perms tid role ename action p hfind
    unfold _check_permission
    rw [hfind]
  · intro ename role perm_in db u db' p' action h hallow
    unfold set_permissions at h
    split at h
    · simp at h
    · rename_i cu hadmin
      obtain ⟨rfl, hrole⟩ := get_admin_user_ok_inv hadmin
      split at h
      · rename_i a perm hfind
        simp only [Except.ok.injEq, Prod.mk.injEq] at h
        obtain ⟨hdb, hp⟩ := h
        subst hdb
        have hp0 := List.find?_some hfind
        have hupd : setPermRow ename cu.tenant_id role
            { perm with
              can_read := perm_in.can_read, can_create := perm_in.can_create,
              can_update := perm_in.can_update, can_delete := perm_in.can_delete } = true := hp0
        have hfm := find?_map_ite_id hfind hupd
        unfold _check_permission
        rw [find?_congr (permRow_eq_setPermRow cu.tenant_id ename role)]
        rw [hfm]
        have hcan : ({ perm with
                       can_read := perm_in.can_read, can_create := perm_in.can_create,
                       can_update := perm_in.can_update, can_delete := perm_in.can_delete
                     } : EntityPermission).can action = true := by
          cases action <;> exact hallow
        simp [hcan]
      · rename_i a hfind
        simp only [Except.ok.injEq, Prod.mk.injEq] at h
        obtain ⟨hdb, hp⟩ := h
        subst hdb
        unfold _check_permission
        rw [find?_congr (permRow_eq_setPermRow cu.tenant_id ename role)]
        rw [List.find?_append, hfind]
        simp only [Option.none_or]
        rw [List.find?_cons]
        have hrow : setPermRow ename cu.tenant_id role
            ({ id := db.nextId, tenant_id := cu.tenant_id, entity_name := ename, role := role,
               can_read := perm_in.can_read, can_create := perm_in.can_create,
               can_update := perm_in.can_update, can_delete := perm_in.can_delete
             } : EntityPermission) = true := by
          simp [setPermRow]
        rw [hrow]
        have hcan : ({ id := db.nextId, tenant_id := cu.tenant_id, entity_name := ename,
                       role := role,
                       can_read := perm_in.can_read, can_create := perm_in.can_create,
                       can_update := perm_in.can_update, can_delete := perm_in.can_delete
                     } : EntityPermission).can action = true := by
          cases action <;> exact hallow
        simp [hcan]

/-- Claim C9: a boolean payload value passes the integer type check and the
float type check, because Python's bool is a subclass of int, so validate
accepts true and false wherever an integer or a float is declared. -/
theorem c9_bool_passes_numeric :
    ∀ (nm : String) (b : Bool),
      _validate_data [{ name := nm, type := .integer }] [(nm, .vBool b)] = .ok () ∧
      _validate_data [{ name := nm, type := .float }] [(nm, .vBool b)] = .ok () := by
  intro nm b
  constructor <;>
    simp [_validate_data, checkRequired, checkEntries, checkEntry, fieldsMap,
          typeChain, checkConstraints, isStr, isInstInt, isInstNum, isBool,
          pyFromIsoformat, hasKey, List.find?_cons]

/-- Claim C6: numeric min and max are inclusive bounds — a single-field
integer or float schema accepts a value exactly when min ≤ value ≤ max — a
declared pattern accepts exactly the full-string matches, and the spec's
examples behave as stated: with min 0 and max 10 the value 11 fails while 10
succeeds, and with pattern ^[a-z]+$ the value "ABC" fails while "abc"
succeeds. -/
theorem c6_bounds_and_pattern :
    (∀ (nm : String) (m M : Rat) (v : Int),
        (_validate_data [{ name := nm, type := .integer, min := some m, max := some M }]
            [(nm, .vInt v)] = .ok () ↔ m ≤ (v : Rat) ∧ (v : Rat) ≤ M)) ∧
    (∀ (nm : String) (m M q : Rat),
        (_validate_data [{ name := nm, type := .float, min := some m, max := some M }]
            [(nm, .vFloat q)] = .ok () ↔ m ≤ q ∧ q ≤ M)) ∧
    (∀ (nm : String) (r : Regex) (s : String),
        (_validate_data [{ name := nm, type := .string, pattern := some r }]
            [(nm, .vStr s)] = .ok () ↔ r.fullmatch s = true)) ∧
    _validate_data [{ name := "n", type := .integer, min := some 0, max := some 10 }]
      [("n", .vInt 11)] = .error ⟨400, "Field n above max"⟩ ∧
    _validate_data [{ name := "n", type := .integer, min := some 0, max := some 10 }]
      [("n", .vInt 10)] = .ok () ∧
    _validate_data [{ name := "s", type := .string, pattern := some lowerPlus }]
      [("s", .vStr "ABC")] = .error ⟨400, "Field s does not match pattern"⟩ ∧
    _validate_data [{ name := "s", type := .string, pattern := some lowerPlus }]
      [("s", .vStr "abc")] = .ok () := by
  refine ⟨?_, ?_, ?_, by decide, by decide, by decide, by decide⟩
  · intro nm m M v
    by_cases h1 : ((v : Rat) < m)
    · have h : _validate_data [{ name := nm, type := .integer, min := some m, max := some M }]
          [(nm, .vInt v)] = .error ⟨400, "Field " ++ nm ++ " below min"⟩ := by
        simp [_validate_data, checkRequired, checkEntries, checkEntry, fieldsMap,
              typeChain, checkConstraints, isInstInt, numVal, hasKey, h1]
      rw [h]
      exact iff_of_false (by simp) (fun hc => absurd h1 (not_lt.mpr hc.1))
    · by_cases h2 : (M < (v : Rat))
      · have h : _validate_data [{ name := nm, type := .integer, min := some m, max := some M }]
            [(nm, .vInt v)] = .error ⟨400, "Field " ++ nm ++ " above max"⟩ := by
          simp [_validate_data, checkRequired, checkEntries, checkEntry, fieldsMap,
                typeChain, checkConstraints, isInstInt, numVal, hasKey, h1, h2]
        rw [h]
        exact iff_of_false (by simp) (fun hc => absurd h2 (not_lt.mpr hc.2))
      · have h : _validate_data [{ name := nm, type := .integer, min := some m, max := some M }]
            [(nm, .vInt v)] = .ok () := by
          simp [_validate_data, checkRequired, checkEntries, checkEntry, fieldsMap,
                typeChain, checkConstraints, isInstInt, numVal, hasKey, h1, h2]
        rw [h]
        exact iff_of_true rfl ⟨not_lt.mp h1, not_lt.mp h2⟩
  · intro nm m M q
    by_cases h1 : (q < m)
    · have h : _validate_data [{ name := nm, type := .float, min := some m, max := some M }]
          [(nm, .vFloat q)] = .error ⟨400, "Field " ++ nm ++ " below min"⟩ := by
        simp [_validate_data, checkRequired, checkEntries, checkEntry, fieldsMap,
              typeChain, checkConstraints, isInstNum, numVal, hasKey, h1]
      rw [h]
      exact iff_of_false (by simp) (fun hc => absurd h1 (not_lt.mpr hc.1))
    · by_cases h2 : (M < q)
      · have h : _validate_data [{ name := nm, type := .float, min := some m, max := some M }]
            [(nm, .vFloat q)] = .error ⟨400, "Field " ++ nm ++ " above max"⟩ := by
          simp [_validate_data, checkRequired, checkEntries, checkEntry, fieldsMap,
                typeChain, checkConstraints, isInstNum, numVal, hasKey, h1, h2]
        rw [h]
        exact iff_of_false (by simp) (fun hc => absurd h2 (not_lt.mpr hc.2))
      · have h : _validate_data [{ name := nm, type := .float, min := some m, max := some M }]
            [(nm, .vFloat q)] = .ok () := by
          simp [_validate_data, checkRequired, checkEntries, checkEntry, fieldsMap,
                typeChain, checkConstraints, isInstNum, numVal, hasKey, h1, h2]
        rw [h]
        exact iff_of_true rfl ⟨not_lt.mp h1, not_lt.mp h2⟩
  · intro nm r s
    cases hm : r.fullmatch s with
    | false =>
        have h : _validate_data [{ name := nm, type := .string, pattern := some r }]
            [(nm, .vStr s)] = .error ⟨400, "Field " ++ nm ++ " does not match pattern"⟩ := by
          simp [_validate_data, checkRequired, checkEntries, checkEntry, fieldsMap,
                typeChain, checkConstraints, isStr, strVal, hasKey, hm]
        rw [h]
        exact iff_of_false (by simp) (by simp)
    | true =>
        have h : _validate_data [{ name := nm, type := .string, pattern := some r }]
            [(nm, .vStr s)] = .ok () := by
          simp [_validate_data, checkRequired, checkEntries, checkEntry, fieldsMap,
                typeChain, checkConstraints, isStr, strVal, hasKey, hm]
        rw [h]
        exact iff_of_true rfl rfl

/-- The required-field pass fails on the first required field, in declaration
order, whose name is missing from the payload. -/
theorem checkRequired_eq_find? (fields : List FieldDef) (data : Payload) :
    checkRequired fields data =
      (match fields.find? (fun f => f.required && !(hasKey data f.name)) with
       | some f => .error ⟨400, "Missing required field: " ++ f.name⟩
       | none => .ok ()) := by
  induction fields with
  | nil => rfl
  | cons f fs ih =>
      unfold checkRequired
      rw [List.find?_cons]
      cases hf : (f.required && !(hasKey data f.name)) with
      | true => rw [if_pos rfl]
      | false =>
          rw [if_neg (by simp)]
          exact ih

/-- With field names unique within a schema, the last-wins dict-comprehension
lookup coincides with the first-match search. -/
theorem fieldsMap_eq_find? {fields : List FieldDef} (key : String)
    (h : (fields.map FieldDef.name).Nodup) :
    fieldsMap fields key = fields.find? (fun f => f.name == key) := by
  induction fields with
  | nil => rfl
  | cons f fs ih =>
      simp only [List.map_cons, List.nodup_cons] at h
      obtain ⟨hnot, hnd⟩ := h
      cases hf : (f.name == key) with
      | true =>
          have hpos : (fun g : FieldDef => g.name == key) f = true := hf
          have hnone : fs.reverse.find? (fun g => g.name == key) = none := by
            rw [List.find?_eq_none]
            intro g hg hgk
            apply hnot
            have hg2 : g.name = key := by simpa using hgk
            have hf2 : f.name = key := by simpa using hf
            rw [hf2, ← hg2]
            exact List.mem_map_of_mem FieldDef.name (List.mem_reverse.mp hg)
          unfold fieldsMap
          rw [List.reverse_cons, List.find?_append]
          rw [show (fun g : FieldDef => g.name == key) = (fun f : FieldDef => f.name == key)
                from rfl] at hnone
          rw [hnone, Option.none_or,
              @List.find?_cons_of_pos FieldDef (fun f => f.name == key) f [] hpos,
              @List.find?_cons_of_pos FieldDef (fun f => f.name == key) f fs hpos]
      | false =>
          have hneg : ¬ ((fun g : FieldDef => g.name == key) f = true) := by simp [hf]
          have ihh := ih hnd
          unfold fieldsMap at ihh
          unfold fieldsMap
          rw [List.reverse_cons, List.find?_append, ihh,
              @List.find?_cons_of_neg FieldDef (fun f => f.name == key) f [] hneg,
              @List.find?_cons_of_neg FieldDef (fun f => f.name == key) f fs hneg,
              List.find?_nil, Option.or_none]

/-- With unique field names the per-entry check of the source coincides with
the amended per-key check. -/
theorem checkEntry_eq_amended {fields : List FieldDef} (key : String) (value : Value)
    (h : (fields.map FieldDef.name).Nodup) :
    checkEntry fields key value = amendedKeyCheck fields key value := by
  unfold checkEntry amendedKeyCheck
  rw [fieldsMap_eq_find? key h]

/-- With unique field names the payload loop of the source coincides with the
amended payload loop. -/
theorem checkEntries_eq_amended {fields : List FieldDef} (data : Payload)
    (h : (fields.map FieldDef.name).Nodup) :
    checkEntries fields data = amendedEntriesLoop fields data := by
  induction data with
  | nil => rfl
  | cons kv rest ih =>
      obtain ⟨k, v⟩ := kv
      unfold checkEntries amendedEntriesLoop
      rw [checkEntry_eq_amended k v h]
      cases amendedKeyCheck fields k v with
      | error e => rfl
      | ok u => cases u; exact ih

/-- Claim C5, counterexample: the claim's phased reading — all unknown-key
checks (2) before any type check (3) — disagrees with the code on a payload
whose first key is known but type-violating and whose second key is unknown:
the code reports the type error of key a, the phased reading the unknown
field b. -/
theorem c5_counterexample :
    _validate_data c5Fields c5Payload ≠ validateClaimPhased c5Fields c5Payload ∧
    _validate_data c5Fields c5Payload = .error ⟨400, "Field a must be integer"⟩ ∧
    validateClaimPhased c5Fields c5Payload = .error ⟨400, "Unknown field: b"⟩ := by
  decide

/-- Claim C5 as amended: for a schema with unique field names, validation
fails fast at the first violation found when checking, first, every required
field in declaration order for presence, and then each payload key in
insertion order — unknown field, then declared type, then constraints — all
checks of one key before the next key is examined. -/
theorem c5_order_amended :
    ∀ (schema_fields : List FieldDef) (data : Payload),
      (schema_fields.map FieldDef.name).Nodup →
      _validate_data schema_fields data = validateAmendedSpec schema_fields data := by
  intro fields data h
  unfold _validate_data validateAmendedSpec
  rw [checkRequired_eq_find? fields data]
  cases hf : fields.find? (fun f => f.required && !(hasKey data f.name)) with
  | some f => rfl
  | none => exact checkEntries_eq_amended data h

/-- Witness for the amended claim C5 at a concrete schema with unique field
names. -/
theorem c5_order_amended_witness :
    _validate_data c5Fields [("a", .vInt 1)] = validateAmendedSpec c5Fields [("a", .vInt 1)] :=
  c5_order_amended c5Fields [("a", .vInt 1)] (by decide)

/-- Propositional reading of the uniqueness row filter. -/
theorem uniqueRowHit_iff (ename : String) (tid : Nat) (fname : String) (v : Value)
    (rid : Option Nat) (r : Record) :
    uniqueRowHit ename tid fname v rid r = true ↔
      (r.entity_name = ename ∧ r.tenant_id = tid ∧
       storedText r fname = some (pyStr v) ∧
       (match rid with
        | some i => r.id ≠ i
        | none => True)) := by
  unfold uniqueRowHit storedText
  cases rid <;> cases hv : pyGet r.data fname <;>
    simp [hv, and_assoc]

/-- Claim C7, counterexample: the claim's single string-representation reading
calls two stored-vs-candidate boolean trues a collision, but the code compares
the stored jsonb text "true" with Python str(True) = "True" and reports no
collision. -/
theorem c7_counterexample :
    _check_uniques [fFlag] [("flag", .vBool true)] [recFlag] "e" 1 none = .ok () ∧
    check_uniques_claim [fFlag] [("flag", .vBool true)] [recFlag] "e" 1 none =
      .error ⟨400, "Field flag must be unique"⟩ := by
  decide

/-- Claim C7 as amended: for every unique field present in the payload, the
uniqueness check succeeds exactly when no other record of the same tenant and
entity — excluding, on update, the record being updated — stores a value
whose database text (jsonb ->> form) equals the candidate value's Python str
form.  The two coercions coincide on numbers and strings, so numeric 1 still
collides with string "1", but they differ on booleans ("true" versus
"True"), which therefore never collide. -/
theorem c7_unique_amended :
    ∀ (schema_fields : List FieldDef) (data : Payload) (records : List Record)
      (ename : String) (tid : Nat) (rid : Option Nat),
      (_check_uniques schema_fields data records ename tid rid = .ok () ↔
        ∀ f ∈ schema_fields, f.unique = true →
          (match pyGet data f.name with
           | some v =>
               ¬ ∃ r ∈ records, r.entity_name = ename ∧ r.tenant_id = tid ∧
                   storedText r f.name = some (pyStr v) ∧
                   (match rid with
                    | some i => r.id ≠ i
                    | none => True)
           | none => True)) := by
  intro fields data records ename tid rid
  induction fields with
  | nil => simp [_check_uniques]
  | cons field rest ih =>
      unfold _check_uniques
      split
      · split
        · rename_i hcond a v hp
          split
          · rename_i hhit
            refine iff_of_false (by simp) ?_
            intro hall
            have hex : ∃ r ∈ records, uniqueRowHit ename tid field.name v rid r = true :=
              List.find?_isSome.mp hhit
            obtain ⟨r, hrmem, hhit2⟩ := hex
            have hcol := (uniqueRowHit_iff ename tid field.name v rid r).mp hhit2
            have hu : field.unique = true := by
              have hc2 : field.unique = true ∧ hasKey data field.name = true := by
                simpa using hcond
              exact hc2.1
            have hfield := hall field (List.mem_cons_self field rest) hu
            rw [hp] at hfield
            exact hfield ⟨r, hrmem, hcol⟩
          · rename_i hhit
            rw [ih]
            constructor
            · intro hrest f hf
              rcases List.mem_cons.mp hf with hfe | hfr
              · subst hfe
                intro hu2
                rw [hp]
                intro hex
                obtain ⟨r, hrmem, hcol⟩ := hex
                have hrh : uniqueRowHit ename tid f.name v rid r = true :=
                  (uniqueRowHit_iff ename tid f.name v rid r).mpr hcol
                exact hhit (List.find?_isSome.mpr ⟨r, hrmem, hrh⟩)
              · exact hrest f hfr
            · intro hall f hf
              exact hall f (List.mem_cons_of_mem field hf)
        · rename_i hcond hp
          rw [ih]
          constructor
          · intro hrest f hf
            rcases List.mem_cons.mp hf with hfe | hfr
            · subst hfe
              intro hu2
              rw [hp]
              trivial
            · exact hrest f hfr
          · intro hall f hf
            exact hall f (List.mem_cons_of_mem field hf)
      · rename_i hcond
        rw [ih]
        constructor
        · intro hrest f hf
          rcases List.mem_cons.mp hf with hfe | hfr
          · subst hfe
            intro hu2
            have hh : hasKey data f.name = false := by
              cases hhk : hasKey data f.name with
              | false => rfl
              | true =>
                  exfalso
                  exact hcond (by rw [hu2, hhk]; rfl)
            rw [pyGet_eq_none_of_hasKey_false hh]
            trivial
          · exact hrest f hfr
        · intro hall f hf
          exact hall f (List.mem_cons_of_mem field hf)

/-- Witness for the amended claim C7: with the stored string "1" at the unique
email field, a fresh candidate string passes the check, and the numeric
candidate 1 — whose str form "1" equals the stored text — is rejected. -/
theorem c7_unique_amended_witness :
    _check_uniques [fEmail] [("email", .vStr "b@x.com")] [recEmailStr1] "e" 1 none = .ok () ∧
    ¬ (_check_uniques [fEmail] [("email", .vInt 1)] [recEmailStr1] "e" 1 none = .ok ()) := by
  constructor
  · refine (c7_unique_amended [fEmail] [("email", .vStr "b@x.com")]
      [recEmailStr1] "e" 1 none).mpr ?_
    intro f hf hu
    have hfe : f = fEmail := by simpa using hf
    subst hfe
    show ¬ ∃ r ∈ [recEmailStr1], r.entity_name = "e" ∧ r.tenant_id = 1 ∧
        storedText r fEmail.name = some (pyStr (Value.vStr "b@x.com")) ∧ True
    decide
  · intro hok
    have h2 := (c7_unique_amended [fEmail] [("email", .vInt 1)]
      [recEmailStr1] "e" 1 none).mp hok fEmail (by simp) rfl
    have h3 : ¬ ∃ r ∈ [recEmailStr1], r.entity_name = "e" ∧ r.tenant_id = 1 ∧
        storedText r fEmail.name = some (pyStr (Value.vInt 1)) ∧ True := h2
    exact h3 (by decide)

/-- Claim C3: for an existing schema and an existing target version snapshot,
rollback (by an admin caller) copies the target version's field list into the
current schema, increments the version counter — a rollback never decrements
it — and appends a new EntitySchemaVersion snapshot carrying the restored
field list at the new version number. -/
theorem c3_rollback :
    ∀ (db : DB) (u : CurrentUser) (ename : String) (target : Nat)
      (s : EntitySchema) (vobj : EntitySchemaVersion),
      u.role = "admin" →
      db.schemas.find? (schemaRow ename u.tenant_id) = some s →
      db.versions.find? (versionRow ename u.tenant_id target) = some vobj →
      rollback_entity_schema ename target db u =
        .ok ({ db with
               schemas := db.schemas.map (fun x =>
                 if x.id == s.id then { s with schema := vobj.schema, version := s.version + 1 }
                 else x),
               versions := db.versions ++
                 [⟨db.nextId, u.tenant_id, ename, s.version + 1, vobj.schema, db.now⟩],
               nextId := db.nextId + 1 },
             { s with schema := vobj.schema, version := s.version + 1 }) ∧
      s.version < s.version + 1 := by
  intro db u ename target s vobj hrole hs hv
  refine ⟨?_, Nat.lt_succ_self _⟩
  unfold rollback_entity_schema get_admin_user
  rw [hrole]
  simp [hs, hv]

/-- Claim C4: declaring a schema fails with the duplicate-entity 400 when a
current schema already exists for (tenant, entity name) — in particular
declaring the same name twice fails on the second call — and on success it
creates the schema at version 1, appends a version-1 history snapshot, and
seeds all-true permission rows for the standard roles admin and user. -/
theorem c4_declare :
    (∀ (db : DB) (u : CurrentUser) (sin : EntitySchemaCreate) (s0 : EntitySchema),
        u.role = "admin" →
        db.schemas.find? (schemaRowByTenant u.tenant_id sin.entity_name) = some s0 →
        create_entity_schema sin db u =
          .error ⟨400, "Entity \x27" ++ sin.entity_name ++ "\x27 already exists."⟩) ∧
    (∀ (db : DB) (u : CurrentUser) (sin : EntitySchemaCreate),
        u.role = "admin" →
        db.schemas.find? (schemaRowByTenant u.tenant_id sin.entity_name) = none →
        create_entity_schema sin db u =
          .ok ({ db with
                 schemas := db.schemas ++
                   [⟨db.nextId, u.tenant_id, sin.entity_name, sin.fields, 1⟩],
                 versions := db.versions ++
                   [⟨db.nextId + 1, u.tenant_id, sin.entity_name, 1, sin.fields, db.now⟩],
                 perms := db.perms ++
                   [⟨db.nextId + 2, u.tenant_id, sin.entity_name, "admin", true, true, true, true⟩,
                    ⟨db.nextId + 3, u.tenant_id, sin.entity_name, "user", true, true, true, true⟩],
                 nextId := db.nextId + 4 },
               ⟨db.nextId, u.tenant_id, sin.entity_name, sin.fields, 1⟩)) ∧
    (∀ (db : DB) (u : CurrentUser) (sin : EntitySchemaCreate) (db' : DB) (es : EntitySchema),
        create_entity_schema sin db u = .ok (db', es) →
        create_entity_schema sin db' u =
          .error ⟨400, "Entity \x27" ++ sin.entity_name ++ "\x27 already exists."⟩) := by
  refine ⟨?_, ?_, ?_⟩
  · intro db u sin s0 hrole hfind
    unfold create_entity_schema get_admin_user
    rw [hrole]
    simp [hfind]
  · intro db u sin hrole hfind
    unfold create_entity_schema get_admin_user
    rw [hrole]
    simp [hfind]
  · intro db u sin db' es h
    unfold create_entity_schema at h
    split at h
    · simp at h
    · rename_i cu hadmin
      obtain ⟨rfl, hrole⟩ := get_admin_user_ok_inv hadmin
      split at h
      · simp at h
      · rename_i a hfind
        simp only [Except.ok.injEq, Prod.mk.injEq] at h
        obtain ⟨hdb, hes⟩ := h
        subst hdb
        unfold create_entity_schema get_admin_user
        rw [hrole]
        simp [List.find?_append, List.find?_cons, hfind, schemaRowByTenant]

/-- Witness for claim C1: tenant 2's caller, holding an all-true permission
row, targets record 7, which exists only under tenant 1 — all three
operations answer 404 Record not found. -/
theorem c1_tenant_isolation_witness :
    get_record "emp" dbIso outsiderW 7 = .error ⟨404, "Record not found"⟩ ∧
    update_record "emp" dbIso outsiderW 7 [("x", .vInt 2)] = .error ⟨404, "Record not found"⟩ ∧
    delete_record "emp" dbIso outsiderW 7 = .error ⟨404, "Record not found"⟩ := by
  have h := c1_tenant_isolation.2.2.2.2.2 "emp" dbIso outsiderW 7 (by decide)
  exact ⟨h.1 (by decide), h.2.1 [("x", .vInt 2)] (by decide), h.2.2 (by decide)⟩

/-- Witness for claim C2: with no permission rows the viewer's create is
denied, and after set_permissions grants create to the viewer the same check
succeeds. -/
theorem c2_permission_gate_witness :
    _check_permission [] 1 "viewer" .create "emp" =
      .error ⟨403, "Not enough permissions"⟩ ∧
    _check_permission ({ dbEmptyW with
        perms := [⟨0, 1, "emp", "viewer", true, true, true, true⟩],
        nextId := 1 } : DB).perms 1 "viewer" .create "emp" = .ok () := by
  constructor
  · exact c2_permission_gate.1 [] 1 "viewer" "emp" .create rfl
  · exact c2_permission_gate.2.2 "emp" "viewer" ⟨"viewer", true, true, true, true⟩
      dbEmptyW adminW
      { dbEmptyW with
        perms := [⟨0, 1, "emp", "viewer", true, true, true, true⟩], nextId := 1 }
      ⟨0, 1, "emp", "viewer", true, true, true, true⟩ .create (by decide) rfl

/-- Witness for claim C3: the schema at version 3 rolled back to version 1
becomes version 4 with version 1's fields, and a version-4 snapshot is
appended. -/
theorem c3_rollback_witness :
    rollback_entity_schema "emp" 1 dbV3 adminW =
      .ok ({ dbV3 with
             schemas := [⟨0, 1, "emp", fields1W, 4⟩],
             versions := dbV3.versions ++ [⟨10, 1, "emp", 4, fields1W, 9⟩],
             nextId := 11 },
           ⟨0, 1, "emp", fields1W, 4⟩) ∧
    sV3.version < sV3.version + 1 := by
  have h := c3_rollback dbV3 adminW "emp" 1 sV3 ⟨1, 1, "emp", 1, fields1W, 5⟩
    rfl (by decide) (by decide)
  refine ⟨?_, h.2⟩
  rw [h.1]
  rfl

/-- Witness for claim C4: declaring emp on the empty state succeeds at
version 1 with the seeded rows, and declaring it again on the resulting state
fails with the duplicate-entity 400. -/
theorem c4_declare_witness :
    create_entity_schema ⟨"emp", empFields⟩ dbEmptyW adminW =
      .ok ({ dbEmptyW with
             schemas := [⟨0, 1, "emp", empFields, 1⟩],
             versions := [⟨1, 1, "emp", 1, empFields, 5⟩],
             perms := [⟨2, 1, "emp", "admin", true, true, true, true⟩,
                       ⟨3, 1, "emp", "user", true, true, true, true⟩],
             nextId := 4 },
           ⟨0, 1, "emp", empFields, 1⟩) ∧
    create_entity_schema ⟨"emp", empFields⟩
      ({ dbEmptyW with
         schemas := [⟨0, 1, "emp", empFields, 1⟩],
         versions := [⟨1, 1, "emp", 1, empFields, 5⟩],
         perms := [⟨2, 1, "emp", "admin", true, true, true, true⟩,
                   ⟨3, 1, "emp", "user", true, true, true, true⟩],
         nextId := 4 } : DB) adminW =
      .error ⟨400, "Entity \x27emp\x27 already exists."⟩ := by
  have hb := c4_declare.2.1 dbEmptyW adminW ⟨"emp", empFields⟩ rfl rfl
  constructor
  · rw [hb]
    rfl
  · have hc := c4_declare.2.2 dbEmptyW adminW ⟨"emp", empFields⟩ _ _ hb
    exact hc

/-- Witness for claim C8: updating the record from x = 1 to x = 2 appends
exactly the one log entry carrying those before and after payloads. -/
theorem c8_audit_log_witness :
    ({ dbUpd with
       records := [⟨4, 1, "emp", [("x", .vInt 2)], 5, 9, 101, 101⟩],
       logs := [⟨6, 4, 1, "emp", [("x", .vInt 1)], [("x", .vInt 2)], 9, 101⟩],
       nextId := 7 } : DB).logs =
      dbUpd.logs ++ [⟨6, 4, 1, "emp", [("x", .vInt 1)], [("x", .vInt 2)], 9, 101⟩] :=
  c8_audit_log.1 "emp" dbUpd userW 4 [("x", .vInt 2)]
    { dbUpd with
      records := [⟨4, 1, "emp", [("x", .vInt 2)], 5, 9, 101, 101⟩],
      logs := [⟨6, 4, 1, "emp", [("x", .vInt 1)], [("x", .vInt 2)], 9, 101⟩],
      nextId := 7 }
    ⟨4, 1, "emp", [("x", .vInt 2)], 5, 9, 101, 101⟩ recUpd (by decide) (by decide)

/-- Witness for claim C10: the updated record carries the new payload
wholesale and keeps the original created_by. -/
theorem c10_update_frame_witness :
    (⟨4, 1, "emp", [("x", .vInt 2)], 5, 9, 101, 101⟩ : Record).data = [("x", .vInt 2)] ∧
    (⟨4, 1, "emp", [("x", .vInt 2)], 5, 9, 101, 101⟩ : Record).created_by = recUpd.created_by := by
  have h := c10_update_frame "emp" dbUpd userW 4 [("x", .vInt 2)]
    { dbUpd with
      records := [⟨4, 1, "emp", [("x", .vInt 2)], 5, 9, 101, 101⟩],
      logs := [⟨6, 4, 1, "emp", [("x", .vInt 1)], [("x", .vInt 2)], 9, 101⟩],
      nextId := 7 }
    ⟨4, 1, "emp", [("x", .vInt 2)], 5, 9, 101, 101⟩ recUpd (by decide) (by decide)
  exact ⟨h.1, h.2.2.2.2.2.2.1⟩

end Univera

